import Mathlib

/-!
Verification of the transaction-manager repository: a shallow embedding of
`src/database/transaction_executor.rs`, `src/database/query_executor.rs` and
`src/database/connection_pool.rs`, together with theorems settling the frozen
claims about the transactional batch executor, the shared pool cell and the
read helpers.

The database driver (sqlx) is external to the repository; its calls are
modelled as primitives: a statement is a function from transaction state to a
success state or a driver error, and the outcomes of the driver calls
`begin` / `rollback` / `commit` on this call are given by an environment
record. Each driver call the Rust code makes is recorded in an event trace,
so that execution order and the absence of further statement executions are
observable facts of the model.
-/

set_option autoImplicit false

namespace TransactionManager

universe u v w

/-- Models `anyhow::Error`: a base cause wrapped by zero or more layers of
`.context(msg)` / `.with_context(...)` messages, outermost context first. -/
inductive AnyhowError (ε : Type u) where
  | base (cause : ε)
  | context (msg : String) (inner : AnyhowError ε)
  deriving DecidableEq, Repr

/-- Models `sqlx::query::Query` together with its driver semantics
(`Query::execute` against the open transaction): from the current
transaction-local database state it either succeeds, yielding the updated
state, or fails with a driver error. -/
structure Query (σ : Type u) (ε : Type v) where
  run : σ → Except ε σ

/-- Outcomes, fixed for one executor call, of the three transaction-control
driver calls the Rust code makes: `pool.begin()`, `tx.rollback()` and
`tx.commit()`. `none` means the call succeeds; `some e` means it fails with
driver error `e`. -/
structure Env (ε : Type v) where
  beginResult : Option ε
  rollbackResult : Option ε
  commitResult : Option ε

/-- One driver call made by the executor, in the order the Rust code makes
them: transaction begin, execution of the statement at a zero-based index,
transaction rollback, transaction commit. -/
inductive Event where
  | beginTx
  | execStatement (index : Nat)
  | rollback
  | commit
  deriving DecidableEq, Repr

/-- What one call of `execute_queries` produces in the model: the returned
`Result` value, the committed database state after the call, and the trace of
driver calls made. -/
structure ExecOutcome (σ : Type u) (ε : Type v) where
  result : Except (AnyhowError ε) Unit
  db : σ
  trace : List Event
  deriving Repr

/-- The statement loop of `TransactionExecutor::execute_queries`
(`transaction_executor.rs` lines 39-51), translated statement by statement.
`db` is the committed state at entry (restored on every non-commit exit),
`index` is the `enumerate` counter, `tx` is the transaction-local state.
On a statement failure the code rolls back: a rollback failure is surfaced
with context `Failed to rollback transaction`, otherwise the statement error
is surfaced with context naming the index. After the loop the code commits,
surfacing a commit failure with context `Failed to commit transaction`. -/
def TransactionExecutor.execLoop {σ : Type u} {ε : Type v} (env : Env ε) (db : σ)
    (index : Nat) (queries : List (Query σ ε)) (tx : σ) : ExecOutcome σ ε :=
  match queries with
  | [] =>
    match env.commitResult with
    | some e =>
      ⟨.error (.context "Failed to commit transaction" (.base e)), db, [.commit]⟩
    | none => ⟨.ok (), tx, [.commit]⟩
  | query :: rest =>
    match query.run tx with
    | .ok tx2 =>
      let out := TransactionExecutor.execLoop env db (index + 1) rest tx2
      ⟨out.result, out.db, .execStatement index :: out.trace⟩
    | .error error =>
      match env.rollbackResult with
      | some e =>
        ⟨.error (.context "Failed to rollback transaction" (.base e)), db,
          [.execStatement index, .rollback]⟩
      | none =>
        ⟨.error (.context
            ("Failed to execute query in transaction at index " ++ toString index)
            (.base error)), db,
          [.execStatement index, .rollback]⟩

/-- `TransactionExecutor::execute_queries` (`transaction_executor.rs` lines
29-52): begins a transaction (a begin failure is surfaced with context
`Failed to start database transaction`), then runs the enumerated statement
loop starting at index 0 on the current committed state. -/
def TransactionExecutor.execute_queries {σ : Type u} {ε : Type v} (env : Env ε)
    (queries : List (Query σ ε)) (db : σ) : ExecOutcome σ ε :=
  match env.beginResult with
  | some e =>
    ⟨.error (.context "Failed to start database transaction" (.base e)), db, [.beginTx]⟩
  | none =>
    let out := TransactionExecutor.execLoop env db 0 queries db
    ⟨out.result, out.db, .beginTx :: out.trace⟩

/-- `TransactionExecutor::execute_query` (`transaction_executor.rs` lines
22-24): delegates to `execute_queries` on the one-element sequence
`std::iter::once(query)`. -/
def TransactionExecutor.execute_query {σ : Type u} {ε : Type v} (env : Env ε)
    (query : Query σ ε) (db : σ) : ExecOutcome σ ε :=
  TransactionExecutor.execute_queries env [query] db

/-- Reference fold for the statement sequence: runs the statements in order
from state `s`, numbering them from `index`, and reports either the final
state or the zero-based position and driver error of the first failure. -/
def runStatementsFrom {σ : Type u} {ε : Type v} (index : Nat)
    (queries : List (Query σ ε)) (s : σ) : Except (Nat × ε) σ :=
  match queries with
  | [] => .ok s
  | query :: rest =>
    match query.run s with
    | .ok s2 => runStatementsFrom (index + 1) rest s2
    | .error e => .error (index, e)

/-- `runStatementsFrom` starting at index 0: `runStatements queries db = .ok s`
says every statement succeeds and `s` is the state with all effects applied;
`.error (k, e)` says the statement at zero-based index `k` is the first to
fail, with driver error `e`, after the statements before it succeeded. -/
def runStatements {σ : Type u} {ε : Type v} (queries : List (Query σ ε)) (s : σ) :
    Except (Nat × ε) σ :=
  runStatementsFrom 0 queries s

/-- The trace fragment of `count` consecutive statement executions starting at
`index`. -/
def execTrace (index : Nat) : Nat → List Event
  | 0 => []
  | count + 1 => Event.execStatement index :: execTrace (index + 1) count

theorem execTrace_eq_map_range' (index count : Nat) :
    execTrace index count = (List.range' index count).map Event.execStatement := by
  induction count generalizing index with
  | zero => rfl
  | succ n ih => rw [execTrace, List.range'_succ, List.map_cons, ih (index + 1)]

theorem execTrace_zero_eq_map_range (count : Nat) :
    execTrace 0 count = (List.range count).map Event.execStatement := by
  rw [execTrace_eq_map_range', List.range_eq_range']

theorem runStatementsFrom_error_le {σ : Type u} {ε : Type v} :
    ∀ (queries : List (Query σ ε)) (index : Nat) (s : σ) (k : Nat) (e : ε),
      runStatementsFrom index queries s = .error (k, e) → index ≤ k := by
  intro queries
  induction queries with
  | nil => intro index s k e h; simp [runStatementsFrom] at h
  | cons q rest ih =>
    intro index s k e h
    rw [runStatementsFrom] at h
    cases hq : q.run s with
    | ok s2 =>
      rw [hq] at h
      have := ih (index + 1) s2 k e h
      omega
    | error e2 =>
      rw [hq] at h
      cases h
      exact Nat.le_refl _

/-- Characterization of the loop on a fully successful run: it makes one
execution event per statement, in order, then commits; on commit success the
final state carries all effects, on commit failure the committed state is the
entry state and the commit error is surfaced. -/
theorem execLoop_ok {σ : Type u} {ε : Type v} (env : Env ε) (db : σ) :
    ∀ (queries : List (Query σ ε)) (index : Nat) (tx s : σ),
      runStatementsFrom index queries tx = .ok s →
      TransactionExecutor.execLoop env db index queries tx =
        match env.commitResult with
        | some e =>
          ⟨.error (.context "Failed to commit transaction" (.base e)), db,
            execTrace index queries.length ++ [.commit]⟩
        | none => ⟨.ok (), s, execTrace index queries.length ++ [.commit]⟩ := by
  intro queries
  induction queries with
  | nil =>
    intro index tx s h
    rw [runStatementsFrom] at h
    cases h
    rw [TransactionExecutor.execLoop]
    cases env.commitResult <;> simp [execTrace]
  | cons q rest ih =>
    intro index tx s h
    rw [runStatementsFrom] at h
    rw [TransactionExecutor.execLoop]
    cases hq : q.run tx with
    | ok tx2 =>
      rw [hq] at h
      dsimp only at h ⊢
      rw [ih (index + 1) tx2 s h]
      cases env.commitResult <;> simp [execTrace]
    | error e2 =>
      rw [hq] at h
      cases h

/-- Characterization of the loop on a run whose first failure is at index `k`:
it makes exactly the execution events for the indices up to and including `k`,
in order, then attempts a rollback; the committed state is the entry state;
a rollback failure is surfaced as the error, otherwise the statement error
wrapped with the index-naming context. -/
theorem execLoop_error {σ : Type u} {ε : Type v} (env : Env ε) (db : σ) :
    ∀ (queries : List (Query σ ε)) (index : Nat) (tx : σ) (k : Nat) (e : ε),
      runStatementsFrom index queries tx = .error (k, e) →
      TransactionExecutor.execLoop env db index queries tx =
        match env.rollbackResult with
        | some re =>
          ⟨.error (.context "Failed to rollback transaction" (.base re)), db,
            execTrace index (k + 1 - index) ++ [.rollback]⟩
        | none =>
          ⟨.error (.context
              ("Failed to execute query in transaction at index " ++ toString k)
              (.base e)), db,
            execTrace index (k + 1 - index) ++ [.rollback]⟩ := by
  intro queries
  induction queries with
  | nil =>
    intro index tx k e h
    simp [runStatementsFrom] at h
  | cons q rest ih =>
    intro index tx k e h
    rw [runStatementsFrom] at h
    rw [TransactionExecutor.execLoop]
    cases hq : q.run tx with
    | ok tx2 =>
      rw [hq] at h
      dsimp only at h ⊢
      have hle := runStatementsFrom_error_le rest (index + 1) tx2 k e h
      rw [ih (index + 1) tx2 k e h]
      have harith : k + 1 - index = (k + 1 - (index + 1)) + 1 := by omega
      rw [harith, execTrace]
      cases env.rollbackResult <;> simp
    | error e2 =>
      rw [hq] at h
      dsimp only at h ⊢
      cases h
      have harith : index + 1 - index = 1 := by omega
      rw [harith]
      cases env.rollbackResult <;> simp [execTrace]

/-- The statement loop of `QueryExecutor::execute_queries`
(`query_executor.rs` lines 46-58), a statement-by-statement translation of
the second, textually duplicated copy of the transactional loop. -/
def QueryExecutor.execLoop {σ : Type u} {ε : Type v} (env : Env ε) (db : σ)
    (index : Nat) (queries : List (Query σ ε)) (tx : σ) : ExecOutcome σ ε :=
  match queries with
  | [] =>
    match env.commitResult with
    | some e =>
      ⟨.error (.context "Failed to commit transaction" (.base e)), db, [.commit]⟩
    | none => ⟨.ok (), tx, [.commit]⟩
  | query :: rest =>
    match query.run tx with
    | .ok tx2 =>
      let out := QueryExecutor.execLoop env db (index + 1) rest tx2
      ⟨out.result, out.db, .execStatement index :: out.trace⟩
    | .error error =>
      match env.rollbackResult with
      | some e =>
        ⟨.error (.context "Failed to rollback transaction" (.base e)), db,
          [.execStatement index, .rollback]⟩
      | none =>
        ⟨.error (.context
            ("Failed to execute query in transaction at index " ++ toString index)
            (.base error)), db,
          [.execStatement index, .rollback]⟩

/-- `QueryExecutor::execute_queries` (`query_executor.rs` lines 36-59). -/
def QueryExecutor.execute_queries {σ : Type u} {ε : Type v} (env : Env ε)
    (queries : List (Query σ ε)) (db : σ) : ExecOutcome σ ε :=
  match env.beginResult with
  | some e =>
    ⟨.error (.context "Failed to start database transaction" (.base e)), db, [.beginTx]⟩
  | none =>
    let out := QueryExecutor.execLoop env db 0 queries db
    ⟨out.result, out.db, .beginTx :: out.trace⟩

/-- `QueryExecutor::execute_query` (`query_executor.rs` lines 29-31):
delegates to `execute_queries` on `std::iter::once(query)`. -/
def QueryExecutor.execute_query {σ : Type u} {ε : Type v} (env : Env ε)
    (query : Query σ ε) (db : σ) : ExecOutcome σ ε :=
  QueryExecutor.execute_queries env [query] db

/-- Models `sqlx::query::Map` (SQL text plus a row-decoding function) together
with its driver semantics: against the committed database state it either
fails (query execution failure, or decode failure on a produced row) or
succeeds with the list of decoded rows in result order. -/
structure MappedQuery (σ : Type u) (ε : Type v) (υ : Type w) where
  run : σ → Except ε (List υ)

/-- Models the sqlx driver primitive `Map::fetch_optional`: at most one row;
`none` when the query produces zero rows, otherwise the first decoded row. -/
def MappedQuery.fetch_optional {σ : Type u} {ε : Type v} {υ : Type w}
    (query : MappedQuery σ ε υ) (db : σ) : Except ε (Option υ) :=
  match query.run db with
  | .ok rows => .ok rows.head?
  | .error e => .error e

/-- `ConnectionPool::fetch_one` (`connection_pool.rs` lines 78-91): runs
`fetch_optional` against the pool and wraps a driver failure with context
`Failed to fetch optional row`. -/
def ConnectionPool.fetch_one {σ : Type u} {ε : Type v} {υ : Type w}
    (query : MappedQuery σ ε υ) (db : σ) : Except (AnyhowError ε) (Option υ) :=
  match query.fetch_optional db with
  | .ok row => .ok row
  | .error e => .error (.context "Failed to fetch optional row" (.base e))

/-- `QueryExecutor::fetch_one` (`query_executor.rs` lines 64-77): the
identical second copy of the fetch-one helper, against the same pool. -/
def QueryExecutor.fetch_one {σ : Type u} {ε : Type v} {υ : Type w}
    (query : MappedQuery σ ε υ) (db : σ) : Except (AnyhowError ε) (Option υ) :=
  match query.fetch_optional db with
  | .ok row => .ok row
  | .error e => .error (.context "Failed to fetch optional row" (.base e))

/-- The env-var name constant `ENV_DATABASE_URL` of `connection_pool.rs`. -/
def ENV_DATABASE_URL : String := "DATABASE_URL"

/-- The env-var name constant `ENV_CONNECTION_POOL` of `connection_pool.rs`. -/
def ENV_CONNECTION_POOL : String := "CONNECTION_POOL"

/-- The constant `DEFAULT_MAX_CONNECTIONS` of `connection_pool.rs`. -/
def DEFAULT_MAX_CONNECTIONS : Nat := 10

/-- Models `std::env::VarError`: the variable is absent, or its value is not
valid unicode. -/
inductive VarError where
  | notPresent
  | notUnicode
  deriving DecidableEq, Repr

/-- The `Display` text of `std::env::VarError`, as it appears inside the
`anyhow!` message built by `read_u32_env`. -/
def varErrorMessage : VarError → String
  | .notPresent => "environment variable not found"
  | .notUnicode => "environment variable was not valid unicode"

/-- Models `str::parse::<u32>`: an optional leading plus sign, then at least
one ASCII digit, and the value must fit in 32 bits; anything else fails. -/
def parseU32 (s : String) : Option Nat :=
  let chars :=
    match s.data with
    | '+' :: rest => rest
    | cs => cs
  if chars = [] then none
  else if chars.all Char.isDigit then
    let n := chars.foldl (fun acc c => acc * 10 + (c.toNat - 48)) 0
    if n < 2 ^ 32 then some n else none
  else none

/-- `read_u32_env` (`connection_pool.rs` lines 113-121). The process
environment read `std::env::var(key)` is passed in as `value`; its `Ok` case
is parsed as a `u32` with the parse failure wrapped by the context
`{key} must be a valid u32`, `NotPresent` yields the default, and any other
read error is surfaced via `anyhow!`. The inner display text of the driver
`ParseIntError` is abstracted as the string `ParseIntError`. -/
def read_u32_env (key : String) (value : Except VarError String)
    (default_value : Nat) : Except (AnyhowError String) Nat :=
  match value with
  | .ok v =>
    match parseU32 v with
    | some n => .ok n
    | none => .error (.context (key ++ " must be a valid u32") (.base "ParseIntError"))
  | .error .notPresent => .ok default_value
  | .error error =>
    .error (.base ("Failed to read " ++ key ++ ": " ++ varErrorMessage error))

/-- The pool built by `PgPoolOptions` in `ConnectionPool::new`
(`connection_pool.rs` lines 56-65): the configured policy constants together
with the endpoint the pool connects to. -/
structure PgPool where
  url : String
  min_connections : Nat
  max_connections : Nat
  acquire_timeout_secs : Nat
  idle_timeout_secs : Option Nat
  max_lifetime_secs : Option Nat
  test_before_acquire : Bool
  deriving DecidableEq, Repr

/-- The `ConnectionPool` struct of `connection_pool.rs`: wraps the pool. -/
structure ConnectionPool where
  pool : PgPool
  deriving DecidableEq, Repr

/-- The process inputs `ConnectionPool::new` depends on: the two environment
variable reads and the outcome of `PgPoolOptions::connect` (`.ok` when the
endpoint accepts the connection, `.error` with the driver message
otherwise). -/
structure ProcEnv where
  database_url : Except VarError String
  connection_pool : Except VarError String
  connectResult : Except String Unit

/-- `ConnectionPool::new` (`connection_pool.rs` lines 46-68): requires
`DATABASE_URL` (a read failure is wrapped with context
`DATABASE_URL must be set`), reads `CONNECTION_POOL` via `read_u32_env` with
default `DEFAULT_MAX_CONNECTIONS`, checks via `ensure!` that the count is
greater than 0, then builds the pool with min 1 connection, 5 s acquire
timeout, 300 s idle timeout, 1800 s max lifetime and a liveness test before
acquire; a connect failure is wrapped with context
`Failed to create database connection pool`. -/
def ConnectionPool.new (env : ProcEnv) : Except (AnyhowError String) ConnectionPool :=
  match env.database_url with
  | .error e =>
    .error (.context (ENV_DATABASE_URL ++ " must be set") (.base (varErrorMessage e)))
  | .ok database_url =>
    match read_u32_env ENV_CONNECTION_POOL env.connection_pool DEFAULT_MAX_CONNECTIONS with
    | .error e => .error e
    | .ok max_connections =>
      if max_connections > 0 then
        match env.connectResult with
        | .error e =>
          .error (.context "Failed to create database connection pool" (.base e))
        | .ok _ =>
          .ok ⟨⟨database_url, 1, max_connections, 5, some 300, some 1800, true⟩⟩
      else .error (.base (ENV_CONNECTION_POOL ++ " must be greater than 0"))

/-- `ConnectionPool::shared` (`connection_pool.rs` lines 28-37) with the state
of the static `SHARED_CONNECTION_POOL` once-cell passed explicitly, for one
sequential caller. Models `tokio::sync::OnceCell::get_or_try_init` as
documented: a stored value is returned without running the closure; on an
empty cell the closure (`ConnectionPool::new`) runs, a success is stored and
returned (returning the stored value models `Arc::clone` handing out the same
handle), and on an error the error is returned and the cell is left
uninitialized — tokio does not cache a failed initialization. The `Nat`
counts how many times `ConnectionPool::new` ran during the call. -/
def ConnectionPool.shared (cell : Option ConnectionPool) (env : ProcEnv) :
    Except (AnyhowError String) ConnectionPool × Option ConnectionPool × Nat :=
  match cell with
  | some pool => (.ok pool, some pool, 0)
  | none =>
    match ConnectionPool.new env with
    | .ok pool => (.ok pool, some pool, 1)
    | .error e => (.error e, none, 1)

/-- A sequence of calls to `ConnectionPool::shared`, threading the once-cell
state: the list of results in call order, the final cell state, and the total
number of times `ConnectionPool::new` ran. -/
def sharedCalls (cell : Option ConnectionPool) (envs : List ProcEnv) :
    List (Except (AnyhowError String) ConnectionPool) × Option ConnectionPool × Nat :=
  match envs with
  | [] => ([], cell, 0)
  | env :: rest =>
    let this := ConnectionPool.shared cell env
    let next := sharedCalls this.2.1 rest
    (this.1 :: next.1, next.2.1, this.2.2 + next.2.2)

/-- Full case characterization of `TransactionExecutor.execute_queries` in
terms of the reference fold `runStatements`: begin failure, full success with
commit success or commit failure, and first statement failure at index `k`
with rollback success or rollback failure. -/
theorem execute_queries_eq_cases {σ : Type u} {ε : Type v} (env : Env ε)
    (queries : List (Query σ ε)) (db : σ) :
    TransactionExecutor.execute_queries env queries db =
      match env.beginResult with
      | some e =>
        ⟨.error (.context "Failed to start database transaction" (.base e)), db, [.beginTx]⟩
      | none =>
        match runStatements queries db with
        | .ok s =>
          match env.commitResult with
          | some e =>
            ⟨.error (.context "Failed to commit transaction" (.base e)), db,
              .beginTx :: (execTrace 0 queries.length ++ [.commit])⟩
          | none => ⟨.ok (), s, .beginTx :: (execTrace 0 queries.length ++ [.commit])⟩
        | .error (k, e) =>
          match env.rollbackResult with
          | some re =>
            ⟨.error (.context "Failed to rollback transaction" (.base re)), db,
              .beginTx :: (execTrace 0 (k + 1) ++ [.rollback])⟩
          | none =>
            ⟨.error (.context
                ("Failed to execute query in transaction at index " ++ toString k)
                (.base e)), db,
              .beginTx :: (execTrace 0 (k + 1) ++ [.rollback])⟩ := by
  rw [TransactionExecutor.execute_queries.eq_def]
  cases hb : env.beginResult with
  | some e => rfl
  | none =>
    dsimp only
    cases hr : runStatements queries db with
    | ok s =>
      rw [runStatements] at hr
      rw [execLoop_ok env db queries 0 db s hr]
      cases env.commitResult <;> rfl
    | error ke =>
      obtain ⟨k, e⟩ := ke
      rw [runStatements] at hr
      rw [execLoop_error env db queries 0 db k e hr]
      have hk : k + 1 - 0 = k + 1 := by omega
      rw [hk]
      cases env.rollbackResult <;> rfl

/-! Concrete fixtures used by the closed witness theorems: the database state
is a `Nat`, driver errors are `String`s. -/

/-- A driver environment where begin, rollback and commit all succeed. -/
def envAllOk : Env String := ⟨none, none, none⟩

/-- A driver environment where rollback fails with message `rbfail`. -/
def envRollbackFails : Env String := ⟨none, some "rbfail", none⟩

/-- A statement that always succeeds and increments the state. -/
def incQuery : Query Nat String := ⟨fun s => .ok (s + 1)⟩

/-- A statement that always fails with driver error `boom`. -/
def failQuery : Query Nat String := ⟨fun _ => .error "boom"⟩

/-- Claim C1: the batch is atomic. `execute_queries` returns `Ok(())` exactly
when begin succeeded, every statement succeeded and the final commit
succeeded; in that case the final database state carries the effects of every
statement (the state of the reference fold `runStatements`); and when a
statement fails, begin and rollback having succeeded, the returned value is
the positioned statement error and the database state is the entry state —
no partial visibility. -/
theorem execute_queries_atomic {σ : Type u} {ε : Type v} (env : Env ε)
    (queries : List (Query σ ε)) (db : σ) :
    ((TransactionExecutor.execute_queries env queries db).result = .ok () ↔
      env.beginResult = none ∧ env.commitResult = none ∧
        ∃ s, runStatements queries db = .ok s) ∧
    (∀ s, env.beginResult = none → env.commitResult = none →
      runStatements queries db = .ok s →
      TransactionExecutor.execute_queries env queries db =
        ⟨.ok (), s, .beginTx :: (execTrace 0 queries.length ++ [.commit])⟩) ∧
    (∀ k e, env.beginResult = none → env.rollbackResult = none →
      runStatements queries db = .error (k, e) →
      (TransactionExecutor.execute_queries env queries db).db = db ∧
      (TransactionExecutor.execute_queries env queries db).result =
        .error (.context
          ("Failed to execute query in transaction at index " ++ toString k)
          (.base e))) := by
  rw [execute_queries_eq_cases]
  cases hb : env.beginResult with
  | some e0 =>
    refine ⟨by simp, ?_, ?_⟩
    · intro s h1 h2 h3; cases h1
    · intro k e h1 h2 h3; cases h1
  | none =>
    dsimp only
    cases hr : runStatements queries db with
    | ok s0 =>
      cases hc : env.commitResult with
      | some ce =>
        refine ⟨by simp, ?_, ?_⟩
        · intro s h1 h2 h3; cases h2
        · intro k e h1 h2 h3; cases h3
      | none =>
        refine ⟨by simp, ?_, ?_⟩
        · intro s h1 h2 h3
          injection h3 with h4
          rw [h4]
        · intro k e h1 h2 h3; cases h3
    | error ke =>
      obtain ⟨k0, e0⟩ := ke
      refine ⟨?_, ?_, ?_⟩
      · cases env.rollbackResult <;> simp
      · intro s h1 h2 h3; cases h3
      · intro k e h1 h2 h3
        injection h3 with h4
        injection h4 with hk he
        rw [h2, ← hk, ← he]
        exact ⟨rfl, rfl⟩

/-- Witness for C1 at a concrete input: two incrementing statements under an
all-successful driver commit, applying both effects to state `0`. -/
theorem execute_queries_atomic_witness :
    TransactionExecutor.execute_queries envAllOk [incQuery, incQuery] 0 =
      ⟨.ok (), 2, .beginTx :: (execTrace 0 2 ++ [.commit])⟩ :=
  (execute_queries_atomic envAllOk [incQuery, incQuery] 0).2.1 2 rfl rfl rfl

/-- Claim C2: when the statement at zero-based index `k` is the first to fail
(hypothesis `runStatements queries db = .error (k, e)`), the driver-call
trace is begin, then the executions of exactly the statements `0 .. k` in
order, then a rollback — statements in order, nothing after `k`, rollback
issued — and when the rollback succeeds the returned error wraps the failure
cause `e` with the context naming index `k`. -/
theorem execute_queries_first_failure {σ : Type u} {ε : Type v} (env : Env ε)
    (queries : List (Query σ ε)) (db : σ) (k : Nat) (e : ε)
    (hbegin : env.beginResult = none)
    (hfail : runStatements queries db = .error (k, e)) :
    (TransactionExecutor.execute_queries env queries db).trace =
      .beginTx :: ((List.range (k + 1)).map Event.execStatement ++ [.rollback]) ∧
    (env.rollbackResult = none →
      TransactionExecutor.execute_queries env queries db =
        ⟨.error (.context
            ("Failed to execute query in transaction at index " ++ toString k)
            (.base e)), db,
          .beginTx :: (execTrace 0 (k + 1) ++ [.rollback])⟩) := by
  rw [execute_queries_eq_cases, hbegin]
  dsimp only
  rw [hfail]
  dsimp only
  constructor
  · cases env.rollbackResult <;> simp [execTrace_zero_eq_map_range]
  · intro hrb
    rw [hrb]

/-- Witness for C2 at a concrete input: the statement at index 1 is the first
to fail, the trace stops at index 1 and rolls back, and the error names
index 1 and cause `boom`. -/
theorem execute_queries_first_failure_witness :
    (TransactionExecutor.execute_queries envAllOk [incQuery, failQuery, incQuery] 0).trace =
      .beginTx :: ((List.range 2).map Event.execStatement ++ [.rollback]) ∧
    TransactionExecutor.execute_queries envAllOk [incQuery, failQuery, incQuery] 0 =
      ⟨.error (.context
          ("Failed to execute query in transaction at index " ++ toString 1)
          (.base "boom")), 0,
        .beginTx :: (execTrace 0 2 ++ [.rollback])⟩ := by
  have h := execute_queries_first_failure envAllOk [incQuery, failQuery, incQuery] 0 1 "boom"
    rfl rfl
  exact ⟨h.1, h.2 rfl⟩

/-- Claim C3: when a statement fails and the subsequent rollback also fails,
the returned error is the rollback failure (context
`Failed to rollback transaction` wrapping the rollback cause `re`): it
mentions neither the original statement error `e` nor the position `k`,
superseding them in the surfaced result. -/
theorem execute_queries_rollback_failure_supersedes {σ : Type u} {ε : Type v}
    (env : Env ε) (queries : List (Query σ ε)) (db : σ) (k : Nat) (e re : ε)
    (hbegin : env.beginResult = none)
    (hfail : runStatements queries db = .error (k, e))
    (hrb : env.rollbackResult = some re) :
    (TransactionExecutor.execute_queries env queries db).result =
      .error (.context "Failed to rollback transaction" (.base re)) := by
  rw [execute_queries_eq_cases, hbegin]
  dsimp only
  rw [hfail]
  dsimp only
  rw [hrb]

/-- Witness for C3 at a concrete input: the statement at index 0 fails with
`boom`, rollback fails with `rbfail`, and the surfaced error is the rollback
failure. -/
theorem execute_queries_rollback_failure_supersedes_witness :
    (TransactionExecutor.execute_queries envRollbackFails [failQuery] 0).result =
      .error (.context "Failed to rollback transaction" (.base "rbfail")) :=
  execute_queries_rollback_failure_supersedes envRollbackFails [failQuery] 0 0 "boom" "rbfail"
    rfl rfl rfl

/-- Claim C9: on the empty statement sequence, `execute_queries` still begins
a transaction and commits it, executes no statement (the trace is exactly
begin then commit), leaves the database state unchanged, and returns `Ok(())`
exactly when the commit succeeds (begin success being the hypothesis). -/
theorem execute_queries_empty {σ : Type u} {ε : Type v} (env : Env ε) (db : σ)
    (hbegin : env.beginResult = none) :
    (TransactionExecutor.execute_queries env ([] : List (Query σ ε)) db).trace =
      [.beginTx, .commit] ∧
    (TransactionExecutor.execute_queries env ([] : List (Query σ ε)) db).db = db ∧
    ((TransactionExecutor.execute_queries env ([] : List (Query σ ε)) db).result = .ok ()
      ↔ env.commitResult = none) := by
  rw [execute_queries_eq_cases, hbegin]
  dsimp only [runStatements, runStatementsFrom]
  cases hc : env.commitResult with
  | some ce => exact ⟨rfl, rfl, by simp⟩
  | none => exact ⟨rfl, rfl, by simp⟩

/-- Witness for C9 at a concrete input: the empty batch on state `5` under an
all-successful driver. -/
theorem execute_queries_empty_witness :
    (TransactionExecutor.execute_queries envAllOk ([] : List (Query Nat String)) 5).trace =
      [.beginTx, .commit] ∧
    (TransactionExecutor.execute_queries envAllOk ([] : List (Query Nat String)) 5).db = 5 ∧
    (TransactionExecutor.execute_queries envAllOk ([] : List (Query Nat String)) 5).result =
      .ok () := by
  have h := execute_queries_empty envAllOk (5 : Nat) rfl
  exact ⟨h.1, h.2.1, h.2.2.mpr rfl⟩

/-- Claim C6: for every single statement, the single-statement convenience
form equals the batch form applied to the one-element sequence — the same
returned result, the same database state and the same driver-call trace —
for both executor types. -/
theorem execute_query_eq_singleton_batch {σ : Type u} {ε : Type v} (env : Env ε)
    (query : Query σ ε) (db : σ) :
    TransactionExecutor.execute_query env query db =
      TransactionExecutor.execute_queries env [query] db ∧
    QueryExecutor.execute_query env query db =
      QueryExecutor.execute_queries env [query] db :=
  ⟨rfl, rfl⟩

theorem queryExecutor_execLoop_eq {σ : Type u} {ε : Type v} (env : Env ε) (db : σ) :
    ∀ (queries : List (Query σ ε)) (index : Nat) (tx : σ),
      QueryExecutor.execLoop env db index queries tx =
        TransactionExecutor.execLoop env db index queries tx := by
  intro queries
  induction queries with
  | nil => intro index tx; rfl
  | cons q rest ih =>
    intro index tx
    rw [QueryExecutor.execLoop, TransactionExecutor.execLoop]
    cases hq : q.run tx with
    | ok tx2 =>
      dsimp only
      rw [ih (index + 1) tx2]
    | error e2 => rfl

/-- Claim C10: `QueryExecutor::execute_queries` and
`TransactionExecutor::execute_queries` are extensionally equal — for every
driver environment, statement sequence and database state they produce the
same result, the same final state and the same driver-call trace; the two
types are duplicate implementations of the same transactional loop. -/
theorem queryExecutor_eq_transactionExecutor {σ : Type u} {ε : Type v} (env : Env ε)
    (queries : List (Query σ ε)) (db : σ) :
    QueryExecutor.execute_queries env queries db =
      TransactionExecutor.execute_queries env queries db := by
  rw [QueryExecutor.execute_queries.eq_def, TransactionExecutor.execute_queries.eq_def]
  cases env.beginResult with
  | some e => rfl
  | none =>
    dsimp only
    rw [queryExecutor_execLoop_eq]

/-- A mapped query whose execution succeeds with exactly one decoded row,
namely the state plus seven. -/
def oneRowQuery : MappedQuery Nat String Nat := ⟨fun db => .ok [db + 7]⟩

/-- A mapped query whose execution succeeds with zero rows. -/
def zeroRowQuery : MappedQuery Nat String Nat := ⟨fun _ => .ok []⟩

/-- Claim C7: for every mapped query whose execution succeeds with row list
`rows`, both `fetch_one` helpers return `Ok` of the head of `rows` — so zero
rows give `Ok(None)`, never an error, and at least one row gives
`Ok(Some r)` with `r` the first decoded row. -/
theorem fetch_one_rows {σ : Type u} {ε : Type v} {υ : Type w}
    (query : MappedQuery σ ε υ) (db : σ) (rows : List υ)
    (h : query.run db = .ok rows) :
    ConnectionPool.fetch_one query db = .ok rows.head? ∧
    QueryExecutor.fetch_one query db = .ok rows.head? ∧
    (rows = [] → ConnectionPool.fetch_one query db = .ok none) ∧
    (∀ r rest, rows = r :: rest → ConnectionPool.fetch_one query db = .ok (some r)) := by
  have hopt : query.fetch_optional db = .ok rows.head? := by
    rw [MappedQuery.fetch_optional.eq_def, h]
  have hcp : ConnectionPool.fetch_one query db = .ok rows.head? := by
    rw [ConnectionPool.fetch_one.eq_def, hopt]
  have hqe : QueryExecutor.fetch_one query db = .ok rows.head? := by
    rw [QueryExecutor.fetch_one.eq_def, hopt]
  refine ⟨hcp, hqe, ?_, ?_⟩
  · intro hrows
    rw [hcp, hrows]
    rfl
  · intro r rest hrows
    rw [hcp, hrows]
    rfl

/-- Witness for C7 at concrete inputs: a one-row query yields `Ok(Some 7)`
from both helpers and a zero-row query yields `Ok(None)`, not an error. -/
theorem fetch_one_rows_witness :
    ConnectionPool.fetch_one oneRowQuery 0 = .ok (some 7) ∧
    QueryExecutor.fetch_one oneRowQuery 0 = .ok (some 7) ∧
    ConnectionPool.fetch_one zeroRowQuery 0 = .ok none :=
  ⟨(fetch_one_rows oneRowQuery 0 [7] rfl).2.2.2 7 [] rfl,
    (fetch_one_rows oneRowQuery 0 [7] rfl).2.1,
    (fetch_one_rows zeroRowQuery 0 [] rfl).2.2.1 rfl⟩

/-- A process environment with `DATABASE_URL` set, `CONNECTION_POOL` absent
and a reachable endpoint. -/
def goodProcEnv : ProcEnv := ⟨.ok "postgres://localhost/app", .error .notPresent, .ok ()⟩

/-- A process environment with `DATABASE_URL` absent, so that
`ConnectionPool::new` fails before connecting. -/
def badProcEnv : ProcEnv := ⟨.error .notPresent, .error .notPresent, .ok ()⟩

/-- The pool `ConnectionPool::new` builds under `goodProcEnv`: default
maximum of 10 connections and the fixed policy constants. -/
def defaultPool : ConnectionPool :=
  ⟨⟨"postgres://localhost/app", 1, 10, 5, some 300, some 1800, true⟩⟩

/-- Counterexample to C4 as stated: from the empty once-cell, the first call
with `DATABASE_URL` absent fails, yet the second call does not return the
cached error — it re-attempts construction (two constructor runs in total)
and succeeds, because `tokio::sync::OnceCell::get_or_try_init` leaves the
cell uninitialized when the initializer fails. -/
theorem shared_failed_first_call_counterexample :
    (sharedCalls none [badProcEnv, goodProcEnv]).1 =
      [.error (.context "DATABASE_URL must be set"
          (.base "environment variable not found")),
        .ok defaultPool] ∧
    (sharedCalls none [badProcEnv, goodProcEnv]).2.2 = 2 ∧
    ¬ (sharedCalls none [badProcEnv, goodProcEnv]).2.2 ≤ 1 := by
  refine ⟨rfl, rfl, by decide⟩

/-- Claim C4 as amended: a failure of the first call to
`ConnectionPool::shared` is returned to that caller but is not cached — the
once-cell remains uninitialized, so the next call re-attempts pool
construction and, when construction then succeeds, returns the new pool. -/
theorem shared_failed_first_call_not_cached (env env2 : ProcEnv)
    (e : AnyhowError String) (pool : ConnectionPool)
    (hfail : ConnectionPool.new env = .error e)
    (hok : ConnectionPool.new env2 = .ok pool) :
    ConnectionPool.shared none env = (.error e, none, 1) ∧
    sharedCalls none [env, env2] = ([.error e, .ok pool], some pool, 2) := by
  have h1 : ConnectionPool.shared none env = (.error e, none, 1) := by
    rw [ConnectionPool.shared.eq_def]
    dsimp only
    rw [hfail]
  have h2 : ConnectionPool.shared none env2 = (.ok pool, some pool, 1) := by
    rw [ConnectionPool.shared.eq_def]
    dsimp only
    rw [hok]
  refine ⟨h1, ?_⟩
  rw [sharedCalls, h1]
  dsimp only
  rw [sharedCalls, h2]
  rfl

/-- Witness for the amended C4 at a concrete input: the first call with
`DATABASE_URL` absent fails and is not cached; the second call constructs
and returns the default pool. -/
theorem shared_failed_first_call_not_cached_witness :
    ConnectionPool.shared none badProcEnv =
      (.error (.context "DATABASE_URL must be set"
          (.base "environment variable not found")), none, 1) ∧
    sharedCalls none [badProcEnv, goodProcEnv] =
      ([.error (.context "DATABASE_URL must be set"
          (.base "environment variable not found")),
        .ok defaultPool], some defaultPool, 2) :=
  shared_failed_first_call_not_cached badProcEnv goodProcEnv
    (.context "DATABASE_URL must be set" (.base "environment variable not found"))
    defaultPool rfl rfl

/-- Claim C5: a successful call to `ConnectionPool::shared` stores the
returned pool in the once-cell, and from that state every later call —
whatever its process environment — returns the same pool and performs zero
further constructor runs: at most one underlying pool is ever constructed. -/
theorem shared_single_construction (cell : Option ConnectionPool) (env : ProcEnv)
    (pool : ConnectionPool)
    (hok : (ConnectionPool.shared cell env).1 = .ok pool) :
    (ConnectionPool.shared cell env).2.1 = some pool ∧
    ∀ envs : List ProcEnv,
      sharedCalls (some pool) envs = (envs.map (fun _ => .ok pool), some pool, 0) := by
  constructor
  · rw [ConnectionPool.shared.eq_def] at hok ⊢
    cases cell with
    | some p =>
      dsimp only at hok ⊢
      injection hok with h
      rw [h]
    | none =>
      dsimp only at hok ⊢
      cases hn : ConnectionPool.new env with
      | ok p =>
        rw [hn] at hok
        dsimp only at hok ⊢
        injection hok with h
        rw [h]
      | error e =>
        rw [hn] at hok
        dsimp only at hok
        cases hok
  · intro envs
    induction envs with
    | nil => rfl
    | cons env2 rest ih =>
      rw [sharedCalls]
      dsimp only [ConnectionPool.shared]
      rw [ih]
      simp

/-- Witness for C5 at a concrete input: a successful first call stores the
default pool, and two further calls — one of them with a broken environment —
both return it with zero constructor runs. -/
theorem shared_single_construction_witness :
    (ConnectionPool.shared none goodProcEnv).2.1 = some defaultPool ∧
    sharedCalls (some defaultPool) [goodProcEnv, badProcEnv] =
      ([.ok defaultPool, .ok defaultPool], some defaultPool, 0) := by
  have h := shared_single_construction none goodProcEnv defaultPool rfl
  exact ⟨h.1, h.2 [goodProcEnv, badProcEnv]⟩

/-- Claim C8: pool construction reads the maximum-connection-count variable
so that an absent `CONNECTION_POOL` yields the default 10 (both in
`read_u32_env` and in the pool `ConnectionPool::new` builds); a present value
that does not parse as a `u32`, or parses as zero, makes construction fail
(it never returns a pool); a present positive parse is used as the maximum;
and an absent `DATABASE_URL` makes construction fail with the
`DATABASE_URL must be set` context. -/
theorem connection_pool_config (env : ProcEnv) :
    (env.connection_pool = .error .notPresent →
      read_u32_env ENV_CONNECTION_POOL env.connection_pool DEFAULT_MAX_CONNECTIONS =
        .ok 10 ∧
      (∀ url, env.database_url = .ok url → env.connectResult = .ok () →
        ConnectionPool.new env = .ok ⟨⟨url, 1, 10, 5, some 300, some 1800, true⟩⟩)) ∧
    (∀ s, env.connection_pool = .ok s →
      ((parseU32 s = none ∨ parseU32 s = some 0) →
        ∀ pool, ConnectionPool.new env ≠ .ok pool) ∧
      (∀ n, parseU32 s = some n → 0 < n → ∀ url, env.database_url = .ok url →
        env.connectResult = .ok () →
        ConnectionPool.new env = .ok ⟨⟨url, 1, n, 5, some 300, some 1800, true⟩⟩)) ∧
    (∀ ve, env.database_url = .error ve →
      ConnectionPool.new env =
        .error (.context (ENV_DATABASE_URL ++ " must be set")
          (.base (varErrorMessage ve)))) := by
  refine ⟨?_, ?_, ?_⟩
  · intro habs
    have hread : read_u32_env ENV_CONNECTION_POOL env.connection_pool
        DEFAULT_MAX_CONNECTIONS = .ok 10 := by
      rw [read_u32_env.eq_def, habs]
      rfl
    refine ⟨hread, ?_⟩
    intro url hurl hconn
    rw [ConnectionPool.new.eq_def, hurl]
    dsimp only
    rw [hread]
    dsimp only
    rw [if_pos (by omega), hconn]
  · intro s hval
    constructor
    · intro hbad pool hok
      rw [ConnectionPool.new.eq_def] at hok
      cases hurl : env.database_url with
      | error ve => rw [hurl] at hok; cases hok
      | ok url =>
        rw [hurl] at hok
        dsimp only at hok
        rw [read_u32_env.eq_def, hval] at hok
        dsimp only at hok
        cases hbad with
        | inl hnone => rw [hnone] at hok; cases hok
        | inr hzero =>
          rw [hzero] at hok
          dsimp only at hok
          rw [if_neg (by omega)] at hok
          cases hok
    · intro n hparse hpos url hurl hconn
      rw [ConnectionPool.new.eq_def, hurl]
      dsimp only
      rw [read_u32_env.eq_def, hval]
      dsimp only
      rw [hparse]
      dsimp only
      rw [if_pos hpos, hconn]
  · intro ve hurl
    rw [ConnectionPool.new.eq_def, hurl]

/-- Witness for C8 at concrete inputs: an absent `CONNECTION_POOL` yields the
default pool with maximum 10; the value `0` makes construction fail; an
absent `DATABASE_URL` fails with the naming context. -/
theorem connection_pool_config_witness :
    ConnectionPool.new goodProcEnv = .ok defaultPool ∧
    (∀ pool, ConnectionPool.new ⟨.ok "postgres://localhost/app", .ok "0", .ok ()⟩ ≠
      .ok pool) ∧
    ConnectionPool.new badProcEnv =
      .error (.context (ENV_DATABASE_URL ++ " must be set")
        (.base (varErrorMessage .notPresent))) :=
  ⟨((connection_pool_config goodProcEnv).1 rfl).2 "postgres://localhost/app" rfl rfl,
    ((connection_pool_config ⟨.ok "postgres://localhost/app", .ok "0", .ok ()⟩).2.1
      "0" rfl).1 (Or.inr (by decide)),
    (connection_pool_config badProcEnv).2.2 .notPresent rfl⟩

end TransactionManager
